import Mathlib

/-!
Verification of the generic persistence core of the activity-tracking backend
(`src/crud/base.py`, `src/utils/validator.py`, `src/models/models.py`,
`src/services/activity_services.py`).

The Python code is shallowly embedded at the level of its actual runtime
semantics.  Three facts about that semantics are load-bearing and are
reflected in the definitions below:

1. `Base.transaction` is a generator-based `@contextmanager` whose `yield`
   sits inside its retry `while` loop.  A `with` statement executes the
   managed body exactly once; when the body raises, the exception is thrown
   into the generator at the `yield`, and if the generator handles it and
   yields again, `contextlib` raises `RuntimeError` ("generator didn't stop
   after throw()").  The scope body is therefore never re-executed.

2. `Base.create` invokes `cls.validate_entity_data(kwargs)` and
   `Base.update` invokes `self.__class__.validate_entity_data(kwargs)`, but
   `DataValidator.validate_entity_data(self, data)` is a plain instance
   method: accessed on the class it is an unbound function, so the single
   argument `kwargs` binds to `self` and `data` has no value — Python
   raises `TypeError` before the validator body runs, on every call.

3. `Base.read_all` opens its scope with `isolation_level="READ COMMITED"`
   (base.py line 170), a misspelling accepted by no SQLAlchemy dialect;
   setting it raises before the scope body runs, so every `read_all` call
   fails before either query executes.

Observable effects (body executions, commits, rollbacks, sleeps,
isolation-level changes) are recorded in traces so that the spec's
statements about them can be expressed.
-/

/-! ## Transaction manager (`Base.transaction`, base.py lines 77-136)

After the connection gate admits the scope, `Base.transaction` optionally
records the connection's current isolation level and sets the requested
one, then enters `while attempts < retry_count`.  The one execution of the
`with` body happens at the first `yield`; on normal completion the
generator resumes, commits and breaks; an exception thrown in at the
`yield` is classified by the handlers at base.py lines 113-132; the
`finally` at lines 133-136 restores the recorded isolation level at the
end of the iteration.

The signature of `Base.transaction` takes a synchronous `Session`
(base.py line 79).  The domain services actually pass an `AsyncSession`,
for which `session.connection()` at line 98 returns an un-awaited
coroutine and the scope fails even before the isolation step; the model
below covers the synchronous-session semantics the function is written
for, which is the most favourable reading of the code. -/

/-- An isolation level, e.g. `"REPEATABLE READ"`; plain strings as in the code. -/
abbrev IsolationLevel := String

/-- The complete set of isolation-level strings any SQLAlchemy dialect
accepts (each dialect accepts a subset of these); an
`execution_options(isolation_level=...)` value outside the connected
dialect's subset raises `ArgumentError` when applied.  The misspelled
`"READ COMMITED"` used by `read_all` belongs to no dialect's set. -/
def sqlalchemyIsolationLevels : List String :=
  ["AUTOCOMMIT", "READ UNCOMMITTED", "READ COMMITTED", "REPEATABLE READ",
   "SERIALIZABLE"]

/-- The isolation levels the PostgreSQL dialect accepts. -/
def postgresqlIsolationLevels : List String :=
  ["AUTOCOMMIT", "READ COMMITTED", "READ UNCOMMITTED", "REPEATABLE READ",
   "SERIALIZABLE"]

/-- Outcome of the single execution the `with` statement gives the scope
body, matching the exception classes distinguished by the handlers in
base.py lines 113-132.  Error payloads identify the underlying error
object. -/
inductive BodyOutcome (α : Type) where
  | ok (value : α)
  | staleData (err : Nat)
  | integrityErr (err : Nat)
  | sqlAlchemyErr (err : Nat)
  | otherErr (err : Nat)
deriving Repr, DecidableEq

/-- Observable events of a transaction scope.  `sleep t` records the call
`time.sleep(0.1 * attempts)`: the slept duration is `t` tenths of a time
unit.  `bodyRun k lvl` records the `k`-th execution of the scope body while
the connection's isolation level is `lvl`. -/
inductive TxEvent where
  | setIsolation (lvl : IsolationLevel)
  | bodyRun (attempt : Nat) (lvl : IsolationLevel)
  | commit
  | rollback
  | sleep (tenths : Nat)
  | restoreIsolation (lvl : IsolationLevel)
deriving Repr, DecidableEq

/-- Final outcome of a transaction scope.
`committed`/`concurrencyExhausted`/`integrityViolation`/`persistenceError`/
`operationError` match the exit sites of base.py lines 110-132;
`runtimeErrorGeneratorThrow` is `contextlib`'s RuntimeError at the second
`yield` after the generator handled a thrown `StaleDataError` and looped;
`generatorDidNotYield` is `contextlib`'s RuntimeError when
`retry_count = 0` makes the `while` loop never yield;
`invalidIsolationLevel` is the SQLAlchemy `ArgumentError` raised when the
requested level is not accepted by the connected dialect (base.py line
102), before the first yield. -/
inductive TxOutcome (α : Type) where
  | committed (value : α)
  | concurrencyExhausted (lastErr : Nat)
  | integrityViolation (err : Nat)
  | persistenceError (err : Nat)
  | operationError (err : Nat)
  | runtimeErrorGeneratorThrow
  | generatorDidNotYield
  | invalidIsolationLevel (lvl : IsolationLevel)
deriving Repr, DecidableEq

/-- The trace emitted by the per-iteration `finally` block (base.py lines
133-136): the recorded isolation level, when one was recorded, is restored. -/
def finallyRestore (saved : Option IsolationLevel) : List TxEvent :=
  match saved with
  | some lvl => [TxEvent.restoreIsolation lvl]
  | none => []

/-- The connection's isolation level after the per-iteration `finally` block. -/
def lvlAfterFinally (saved : Option IsolationLevel) (cur : IsolationLevel) : IsolationLevel :=
  match saved with
  | some lvl => lvl
  | none => cur

/-- Result of running a transaction scope: the event trace, the outcome, and
the connection's final isolation level. -/
structure TxResult (α : Type) where
  events : List TxEvent
  outcome : TxOutcome α
  finalLevel : IsolationLevel
deriving Repr, DecidableEq

/-- The `while attempts < retry_count` part of `Base.transaction`
(base.py lines 104-136) under generator semantics.  `saved` is
`current_isolation`, `cur` the connection's current level.

With `retry_count = 0` the loop never runs, the generator never yields,
and `contextlib` raises RuntimeError ("generator didn't yield").
Otherwise the first iteration runs the body once at the `yield`:

* normal completion: the generator resumes, commits, breaks — committed;
* `StaleDataError` thrown in: the handler rolls back, and when
  `attempts < retry_count` sleeps `0.1 * attempts` (here `attempts = 1`),
  the `finally` restores the recorded level, the loop re-enters and the
  generator yields a second time — at which point `gen.throw` has returned
  a value instead of stopping and `contextlib` raises RuntimeError
  ("generator didn't stop after throw()"); the body is never re-executed.
  When `attempts = retry_count` (only possible with `retry_count = 1`) it
  raises the concurrency-exhausted error instead;
* `IntegrityError` / `SQLAlchemyError` / other exceptions: rollback and
  re-raise, classified; the `finally` restores the recorded level. -/
def txBody {α : Type} (body : BodyOutcome α) (retry_count : Nat)
    (saved : Option IsolationLevel) (cur : IsolationLevel) : TxResult α :=
  if retry_count = 0 then ⟨[], TxOutcome.generatorDidNotYield, cur⟩
  else
    match body with
    | BodyOutcome.ok v =>
        ⟨[TxEvent.bodyRun 1 cur, TxEvent.commit] ++ finallyRestore saved,
         TxOutcome.committed v, lvlAfterFinally saved cur⟩
    | BodyOutcome.staleData e =>
        if 1 < retry_count then
          ⟨[TxEvent.bodyRun 1 cur, TxEvent.rollback, TxEvent.sleep 1]
             ++ finallyRestore saved,
           TxOutcome.runtimeErrorGeneratorThrow, lvlAfterFinally saved cur⟩
        else
          ⟨[TxEvent.bodyRun 1 cur, TxEvent.rollback] ++ finallyRestore saved,
           TxOutcome.concurrencyExhausted e, lvlAfterFinally saved cur⟩
    | BodyOutcome.integrityErr e =>
        ⟨[TxEvent.bodyRun 1 cur, TxEvent.rollback] ++ finallyRestore saved,
         TxOutcome.integrityViolation e, lvlAfterFinally saved cur⟩
    | BodyOutcome.sqlAlchemyErr e =>
        ⟨[TxEvent.bodyRun 1 cur, TxEvent.rollback] ++ finallyRestore saved,
         TxOutcome.persistenceError e, lvlAfterFinally saved cur⟩
    | BodyOutcome.otherErr e =>
        ⟨[TxEvent.bodyRun 1 cur, TxEvent.rollback] ++ finallyRestore saved,
         TxOutcome.operationError e, lvlAfterFinally saved cur⟩

/-- `Base.transaction` (base.py lines 77-136), after the connection gate
has admitted the scope.  `prior` is what `connection.get_isolation_level()`
returns and `dialectLevels` is the set of levels the connected dialect
accepts.  When an isolation level is requested, the prior level is
recorded in `current_isolation` and the requested one is set; a level the
dialect does not accept makes `execution_options` raise before the first
yield, with the connection's level unchanged.  (The restore guard
`if current_isolation:` is modelled as "a level was recorded", faithful
because isolation-level strings are nonempty.) -/
def transaction {α : Type} (body : BodyOutcome α)
    (isolation_level : Option IsolationLevel) (retry_count : Nat)
    (prior : IsolationLevel) (dialectLevels : List String) : TxResult α :=
  match isolation_level with
  | some lvl =>
      if lvl ∈ dialectLevels then
        let r := txBody body retry_count (some prior) lvl
        ⟨TxEvent.setIsolation lvl :: r.events, r.outcome, r.finalLevel⟩
      else
        ⟨[], TxOutcome.invalidIsolationLevel lvl, prior⟩
  | none =>
      txBody body retry_count none prior

/-- Attempt numbers of the body executions recorded in a trace, in order. -/
def bodyRunAttempts : List TxEvent → List Nat
  | [] => []
  | TxEvent.bodyRun k _ :: rest => k :: bodyRunAttempts rest
  | _ :: rest => bodyRunAttempts rest

/-- Isolation levels in effect at each recorded body execution, in order. -/
def bodyRunLevels : List TxEvent → List IsolationLevel
  | [] => []
  | TxEvent.bodyRun _ lvl :: rest => lvl :: bodyRunLevels rest
  | _ :: rest => bodyRunLevels rest

/-- Slept durations recorded in a trace, in tenths of a time unit, in order. -/
def sleepTenths : List TxEvent → List Nat
  | [] => []
  | TxEvent.sleep t :: rest => t :: sleepTenths rest
  | _ :: rest => sleepTenths rest

/-- Number of rollbacks recorded in a trace. -/
def rollbackCount : List TxEvent → Nat
  | [] => 0
  | TxEvent.rollback :: rest => rollbackCount rest + 1
  | _ :: rest => rollbackCount rest

/-- Number of commits recorded in a trace. -/
def commitCount : List TxEvent → Nat
  | [] => 0
  | TxEvent.commit :: rest => commitCount rest + 1
  | _ :: rest => commitCount rest

/-- Duration, in abstract time units, of a sleep recorded as `t` tenths:
`time.sleep(0.1 * attempts)` sleeps `0.1 * t`. -/
def tenthsToTime (t : Nat) : ℚ := (t : ℚ) / 10

/-! ## Connection gate (`connection_semaphore` and `Base.acquire_connection`,
base.py lines 22 and 50-75)

`connection_semaphore = threading.Semaphore(20)` bounds the number of
concurrent connections.  `acquire_connection` makes up to 5 non-blocking
`acquire` calls, sleeping `time.sleep(0.5)` after each failed call, raises
the capacity-exhausted error if none succeeded, and in its `finally` block
releases the semaphore exactly when it was acquired.  Unlike `transaction`
this context manager yields exactly once, so generator semantics and the
code's written control flow coincide. -/

/-- Initial counter of `connection_semaphore` (base.py line 22). -/
def gateCapacity : Nat := 20

/-- Number of acquisition attempts, `range(5)` (base.py line 60). -/
def gateAttemptLimit : Nat := 5

/-- Inter-attempt delay: `time.sleep(0.5)` (base.py line 65). -/
def gateDelay : ℚ := 0.5

/-- State of the connection semaphore: `avail` is the semaphore's internal
counter, `held` the number of permits currently held by scopes. -/
structure GateState where
  avail : Nat
  held : Nat
deriving Repr, DecidableEq

/-- The semaphore before any scope runs: counter 20, nothing held. -/
def gateInit : GateState := ⟨gateCapacity, 0⟩

/-- Operations scopes perform on the semaphore. -/
inductive GateOp where
  | tryAcquire
  | release
deriving Repr, DecidableEq

/-- One semaphore operation.  `connection_semaphore.acquire(blocking=False)`
succeeds (decrementing the counter) exactly when the counter is positive and
otherwise leaves the state unchanged; `connection_semaphore.release()`
increments the counter.  A release is only ever executed by the `finally`
block of a scope that acquired (base.py lines 73-75), so it occurs only
when `held > 0`; the guard records that discipline. -/
def gateStep (s : GateState) : GateOp → GateState
  | GateOp.tryAcquire =>
      if 0 < s.avail then ⟨s.avail - 1, s.held + 1⟩ else s
  | GateOp.release =>
      if 0 < s.held then ⟨s.avail + 1, s.held - 1⟩ else s

/-- Run a sequence of semaphore operations from the initial state. -/
def gateRun (ops : List GateOp) : GateState :=
  ops.foldl gateStep gateInit

/-- The acquisition loop of `acquire_connection` (base.py lines 60-65):
`for attempt in range(5): acquired = ... acquire(blocking=False); if
acquired: break; time.sleep(0.5)`.  `env k` says whether the semaphore had a
free permit at the `k`-th attempt (0-based); the result is the final value
of `acquired` together with the list of slept durations. -/
def acquireLoop (env : Nat → Bool) : Nat → Nat → Bool × List ℚ
  | _, 0 => (false, [])
  | k, fuel + 1 =>
      if env k then (true, [])
      else
        let rest := acquireLoop env (k + 1) fuel
        (rest.1, gateDelay :: rest.2)

/-- What the scope body guarded by `acquire_connection` does: the exit paths
named by the claim. -/
inductive ScopeBody where
  | success
  | businessError
  | infraError
deriving Repr, DecidableEq

/-- Observable result of one `acquire_connection` scope. -/
structure ScopeRun where
  acquired : Bool
  sleeps : List ℚ
  capacityExhausted : Bool
  releases : Nat
deriving Repr, DecidableEq

/-- `acquire_connection` (base.py lines 50-75) around a scope body: run the
acquisition loop; if not acquired, raise the capacity-exhausted error; else
run the body (whatever its exit path, the exception propagates); in the
`finally` block, release exactly when `acquired` is set. -/
def acquire_connection (env : Nat → Bool) (body : ScopeBody) : ScopeRun :=
  let loop := acquireLoop env 0 gateAttemptLimit
  if loop.1 then
    match body with
    | ScopeBody.success => ⟨true, loop.2, false, 1⟩
    | ScopeBody.businessError => ⟨true, loop.2, false, 1⟩
    | ScopeBody.infraError => ⟨true, loop.2, false, 1⟩
  else
    ⟨false, loop.2, true, 0⟩

/-! ## Entity base layer (`Base.create` / `read_by_id` / `read_all` /
`update`, base.py lines 138-300, and `DataValidator.validate_entity_data`,
validator.py lines 5-21)

A persisted row carries its primary-key value (the concrete models all use
a client-side UUID column named `id`) and its attributes as a name/value
association list.  None of the models — nor `Base` itself — defines a
`version` or an `updated_at` column, and no SQLAlchemy `version_id_col` is
configured.  A session's table is a list of rows; `session.scalar(stmt)`
returns the first matching row. -/

/-- A Python attribute value. -/
inductive AttrValue where
  | vStr (s : String)
  | vNat (n : Nat)
  | vNone
deriving Repr, DecidableEq

/-- A persisted row of an entity table. -/
structure Entity where
  pkValue : String
  attrs : List (String × AttrValue)
deriving Repr, DecidableEq

/-- Names of the keyword arguments supplied to an operation, in order. -/
def kwargKeys (kwargs : List (String × AttrValue)) : List String :=
  kwargs.map Prod.fst

/-- The body of `DataValidator.validate_entity_data` (validator.py lines
5-21): iterate over the supplied keys; the first key that is not a
recognized attribute of the entity type (`hasattr` fails) raises the
unknown-attribute error.  Returns `some k` for the offending key, `none`
when all keys are recognized.  This is what the function computes *when it
is invoked with a proper receiver and a data argument*; see
`validate_entity_data_classCall` for how `create` and `update` actually
invoke it. -/
def validate_entity_data (recognized : List String)
    (data : List (String × AttrValue)) : Option String :=
  match data with
  | [] => none
  | (k, _) :: rest =>
      if k ∈ recognized then validate_entity_data recognized rest else some k

/-- Errors surfaced by the entity base layer in the model.
`typeErrorMissingData` is the Python `TypeError` ("missing 1 required
positional argument: 'data'") raised at the broken validator invocation;
`notFound` is the not-found error of `read_by_id`; `readAllError` is the
generic wrapper `"Error al leer las entidades"` of `read_all`'s outer
`except` (base.py lines 176-177). -/
inductive CrudError where
  | typeErrorMissingData
  | notFound (objectId : String)
  | readAllError
deriving Repr, DecidableEq

/-- The invocation `cls.validate_entity_data(kwargs)` (base.py line 231)
and `self.__class__.validate_entity_data(kwargs)` (base.py line 259):
`DataValidator.validate_entity_data(self, data)` is an instance method,
so accessed on the class it is an unbound function; the single argument
`kwargs` binds to the `self` parameter and `data` has no value, and
Python raises `TypeError` before the validator body ever runs — for every
`kwargs`, valid or not.  (The body's own use of `self.__name__` shows it
was written to receive the class, i.e. the missing `@classmethod`
decorator is the slip.) -/
def validate_entity_data_classCall (_kwargs : List (String × AttrValue)) :
    CrudError :=
  CrudError.typeErrorMissingData

/-- `Base.read_by_id` (base.py lines 179-211): `select(cls).where(pk ==
object_id)`, take the first row (`session.scalar`), raise the not-found
error when there is none. -/
def read_by_id (db : List Entity) (object_id : String) : Except CrudError Entity :=
  match db.find? (fun e => e.pkValue == object_id) with
  | some e => Except.ok e
  | none => Except.error (CrudError.notFound object_id)

/-- Result of `Base.create`: whether a transaction scope was opened, and
either an error or the created row together with the table after the flush. -/
structure CreateRun where
  openedScope : Bool
  result : Except CrudError (Entity × List Entity)
deriving Repr

/-- `Base.create` (base.py lines 213-242): the first statement of its `try`
block is the broken validator invocation, which raises `TypeError` on
every call; the `except` at line 241 wraps it into "Error al crear ...".
The transaction scope at lines 234-236 and the construct/add/flush/return
logic after it are unreachable, so `create` never validates field names
and never succeeds. -/
def create (_db : List Entity) (kwargs : List (String × AttrValue)) : CreateRun :=
  ⟨false, Except.error (validate_entity_data_classCall kwargs)⟩

/-- Result of `Base.update`: whether a transaction scope was opened, and
either an error or the table after the flush. -/
structure UpdateRun where
  openedScope : Bool
  result : Except CrudError (List Entity)
deriving Repr

/-- `Base.update` (base.py lines 244-300): the first statement of its `try`
block is the broken validator invocation, which raises `TypeError` on
every call; the `except` at line 299 wraps it into "Error al actualizar
...".  Everything after it is unreachable — including
`current_version = self.version` (line 262), which would itself raise
`AttributeError` since neither `Base` nor any model defines a `version`
attribute, the verification query referencing `cls.version` (line 278),
and the mutation/flush block; no statement anywhere increments a version
(the comment at line 261 announces an increment that does not exist). -/
def update (_db : List Entity) (_self : Entity)
    (kwargs : List (String × AttrValue)) : UpdateRun :=
  ⟨false, Except.error (validate_entity_data_classCall kwargs)⟩

/-- The isolation level `read_all` requests (base.py line 170): the
misspelled `"READ COMMITED"`, accepted by no SQLAlchemy dialect. -/
def readAllIsolationLevel : String := "READ COMMITED"

/-- The row query and the count query as *built* by `Base.read_all`
(base.py lines 157-168), before the scope opens: the unwindowed row query
and `select(func.count()).select_from(cls)`; when both `page` and
`page_size` were supplied, `page` below 1 is coerced to 1 and `page_size`
below 1 to 10, and the row query is windowed with
`offset((page - 1) * page_size).limit(page_size)`.  The value is what the
two queries would return if they were executed against the table.  The
Python signature is `read_all(cls, session, page=None, page_size=None)`:
there is no `filters` parameter, so neither query ever applies a
caller-supplied filter. -/
def read_allQuery (db : List Entity) (page page_size : Option Int) :
    List Entity × Nat :=
  match page, page_size with
  | some p, some s =>
      let p' := if p < 1 then 1 else p
      let s' := if s < 1 then 10 else s
      (((db.drop ((p' - 1) * s').toNat).take s'.toNat), db.length)
  | _, _ => (db, db.length)

/-- `Base.read_all` (base.py lines 138-177): build the two queries, then
execute them inside `cls.transaction(session, isolation_level="READ
COMMITED")`.  Setting that level raises for every dialect before the scope
body runs, and the outer `except` wraps any failure into "Error al leer
las entidades", so the queries never execute and nothing is returned. -/
def read_all (dialectLevels : List String) (prior : IsolationLevel)
    (db : List Entity) (page page_size : Option Int) :
    Except CrudError (List Entity × Nat) :=
  match (transaction (BodyOutcome.ok (read_allQuery db page page_size))
      (some readAllIsolationLevel) 3 prior dialectLevels).outcome with
  | TxOutcome.committed w => Except.ok w
  | _ => Except.error CrudError.readAllError

/-- The keyword parameters accepted by `Base.read_all` (its signature,
base.py lines 139-144), after the implicit class argument. -/
def read_all_params : List String := ["session", "page", "page_size"]

/-- The keyword-argument names supplied to `Activity.read_all` by
`ActivityService.get_activities_by_user`
(src/services/activity_services.py lines 75-77). -/
def get_activities_by_user_call_kwargs : List String :=
  ["page", "page_size", "filters"]

/-! ## Models and the activity domain service (`models.py`,
`ActivityService.create_activity`, activity_services.py lines 9-65) -/

/-- The attribute names the `User` model defines (models.py lines 16-38):
mapped columns and the relationship.  There is no `version` column. -/
def userAttrs : List String :=
  ["id", "username", "email", "hashed_password", "is_active", "last_login",
   "is_staff", "activities"]

/-- The attribute names the `Activity` model defines (models.py lines
58-80): its mapped columns and relationships.  The relationship to
`ActivityType` is named `type` (backed by the `type_id` foreign key added
by migration 5a38b9a78306).  There is no `version` column. -/
def activityAttrs : List String :=
  ["id", "title", "description", "activity_date", "user_id", "user",
   "type_id", "type"]

/-- The attribute names the `ActivityType` model defines (models.py lines
96-110).  There is no `version` column. -/
def activityTypeAttrs : List String :=
  ["id", "name", "color_asigned", "activities"]

/-- The attribute through which `create_activity` would associate the new
activity with the resolved type: `activity.types.append(activity_type)`
(activity_services.py line 63); `Activity.set_default_type` uses the same
`self.types` attribute (models.py lines 84-93). -/
def activityAssociationAttr : String := "types"

/-- A row of the `activity_types` table (models.py lines 96-110). -/
structure ActivityTypeRec where
  id : String
  name : String
  color_asigned : String
deriving Repr, DecidableEq

/-- The no-`type_name` branch of `ActivityService.create_activity`
(activity_services.py lines 43-55): query the activity types named
"General" and take the first; when there is none, construct one with color
"#F6F6F6", add it to the session and flush.  Returns the resolved type and
the session-visible table afterwards; `freshId` models the UUID the flush
assigns. -/
def resolveGeneralType (types : List ActivityTypeRec) (freshId : String) :
    ActivityTypeRec × List ActivityTypeRec :=
  match types.find? (fun t => t.name == "General") with
  | some t => (t, types)
  | none =>
      let t : ActivityTypeRec := ⟨freshId, "General", "#F6F6F6"⟩
      (t, types ++ [t])

/-- Observable result of one `create_activity` call without a type name:
the session-visible type table after the resolve/flush step, the error the
call raises, and the committed type table after the scope unwinds. -/
structure CreateActivityRun where
  sessionTypes : List ActivityTypeRec
  createError : CrudError
  committedTypes : List ActivityTypeRec
deriving Repr, DecidableEq

/-- `ActivityService.create_activity` with `type_name=None`
(activity_services.py lines 22-65), over the committed `activity_types`
table.  Inside `async with session.begin()` the "General" type is resolved
or lazily created and flushed (lines 43-55); then `Activity.create` at
line 58 raises on every call — its first statement is the broken validator
invocation (`TypeError`), independent of the additional `await`-on-a-sync-
method misuse — so `session.begin()` rolls the scope back, the flushed
type row is discarded, and neither the association at line 63 (which would
itself fail: `types` is not an attribute `Activity` defines) nor any
persistence is reached.  The committed table is unchanged. -/
def create_activity_noType (committed : List ActivityTypeRec)
    (freshId : String) : CreateActivityRun :=
  let r := resolveGeneralType committed freshId
  ⟨r.2, validate_entity_data_classCall [], committed⟩

/-! ## Concrete fixtures used by witnesses and theorems -/

/-- A stored row. -/
def c1row : Entity := ⟨"e1", [("title", AttrValue.vStr "old")]⟩

/-- A table of 25 rows, for the pagination scenario of the spec. -/
def db25 : List Entity := List.replicate 25 ⟨"", []⟩

/-! ## Lemmas about the connection gate -/

lemma gateStep_inv (s : GateState) (op : GateOp)
    (h : s.avail + s.held = gateCapacity) :
    (gateStep s op).avail + (gateStep s op).held = gateCapacity := by
  cases op with
  | tryAcquire =>
      by_cases h0 : 0 < s.avail
      · simp only [gateStep, if_pos h0]; omega
      · simp only [gateStep, if_neg h0]; omega
  | release =>
      by_cases h0 : 0 < s.held
      · simp only [gateStep, if_pos h0]; omega
      · simp only [gateStep, if_neg h0]; omega

lemma gateFold_inv :
    ∀ (ops : List GateOp) (s : GateState), s.avail + s.held = gateCapacity →
      (ops.foldl gateStep s).avail + (ops.foldl gateStep s).held = gateCapacity := by
  intro ops
  induction ops with
  | nil => intro s h; simpa using h
  | cons op rest ih =>
      intro s h
      simpa [List.foldl] using ih (gateStep s op) (gateStep_inv s op h)

lemma acquireLoop_spec (env : Nat → Bool) :
    ∀ (fuel k : Nat),
      ((acquireLoop env k fuel).1 = false ↔ ∀ j, j < fuel → env (k + j) = false) ∧
      (acquireLoop env k fuel).2.length ≤ fuel ∧
      ∀ d ∈ (acquireLoop env k fuel).2, d = gateDelay := by
  intro fuel
  induction fuel with
  | zero => intro k; simp [acquireLoop]
  | succ f ih =>
      intro k
      by_cases hk : env k
      · refine ⟨?_, ?_, ?_⟩ <;> simp [acquireLoop, hk]
        exact ⟨0, by omega, by simpa using hk⟩
      · obtain ⟨ih1, ih2, ih3⟩ := ih (k + 1)
        refine ⟨?_, ?_, ?_⟩
        · simp only [acquireLoop, if_neg hk]
          rw [ih1]
          constructor
          · intro h j hj
            match j with
            | 0 => simpa using hk
            | j' + 1 => simpa [Nat.add_comm, Nat.add_left_comm] using h j' (by omega)
          · intro h j hj
            have := h (j + 1) (by omega)
            simpa [Nat.add_comm, Nat.add_left_comm] using this
        · simp only [acquireLoop, if_neg hk, List.length_cons]
          omega
        · simp only [acquireLoop, if_neg hk]
          intro d hd
          rcases List.mem_cons.mp hd with h | h
          · exact h
          · exact ih3 d h

/-! ## Lemmas about the validator body -/

lemma validate_eq_none_iff (recognized : List String)
    (data : List (String × AttrValue)) :
    validate_entity_data recognized data = none ↔ ∀ p ∈ data, p.1 ∈ recognized := by
  induction data with
  | nil => simp [validate_entity_data]
  | cons p rest ih =>
      by_cases hp : p.1 ∈ recognized
      · simp [validate_entity_data, hp, ih]
      · simp only [validate_entity_data, if_neg hp]
        constructor
        · intro h; exact absurd h (by simp)
        · intro h; exact absurd (h p (List.mem_cons_self p rest)) hp

lemma validate_eq_some (recognized : List String)
    (data : List (String × AttrValue)) (k : String) :
    validate_entity_data recognized data = some k →
      k ∉ recognized ∧ k ∈ kwargKeys data := by
  induction data with
  | nil => simp [validate_entity_data]
  | cons p rest ih =>
      by_cases hp : p.1 ∈ recognized
      · simp only [validate_entity_data, if_pos hp]
        intro h
        obtain ⟨h1, h2⟩ := ih h
        exact ⟨h1, by simp [kwargKeys] at h2 ⊢; exact Or.inr h2⟩
      · simp only [validate_entity_data, if_neg hp]
        intro h
        obtain rfl : p.1 = k := Option.some.inj h
        exact ⟨hp, by simp [kwargKeys]⟩

/-! ## Claims -/

/-- C1 (the code evaluated at the failing input): the optimistic-versioning
protocol the claim describes is unimplemented.  Every `Base.update` call
fails with the `TypeError` of the broken validator invocation before
anything else runs and never opens a scope — so no update ever succeeds,
no verification query is ever issued, and no `ConcurrencyConflict` is ever
raised — and no model (`User`, `Activity`, `ActivityType`) defines a
`version` attribute for the protocol to read or increment. -/
theorem claim_C1_version_protocol_unimplemented :
    (update [c1row] c1row [("title", AttrValue.vStr "new")]).result
        = Except.error CrudError.typeErrorMissingData ∧
    (∀ (db : List Entity) (self : Entity) (kwargs : List (String × AttrValue)),
        (update db self kwargs).openedScope = false ∧
        (update db self kwargs).result
          = Except.error CrudError.typeErrorMissingData) ∧
    "version" ∉ userAttrs ∧
    "version" ∉ activityAttrs ∧
    "version" ∉ activityTypeAttrs := by
  refine ⟨rfl, fun db self kwargs => ⟨rfl, rfl⟩, ?_, ?_, ?_⟩ <;> decide

/-- C2 (the code evaluated at the failing input): the retry protocol never
retries.  A scope whose body hits a stale-version conflict with
`retry_count = 3` rolls back once, sleeps `0.1` once, restores the
isolation level, and then aborts with `contextlib`'s RuntimeError at the
second `yield`; the body runs exactly once and is never re-executed, and
the concurrency-exhausted error occurs only for `retry_count = 1`, i.e.
without any retry having happened. -/
theorem claim_C2_retry_never_happens :
    (transaction (BodyOutcome.staleData 0 : BodyOutcome Unit)
        (some "REPEATABLE READ") 3 "READ COMMITTED" postgresqlIsolationLevels).outcome
      = TxOutcome.runtimeErrorGeneratorThrow ∧
    bodyRunAttempts (transaction (BodyOutcome.staleData 0 : BodyOutcome Unit)
        (some "REPEATABLE READ") 3 "READ COMMITTED" postgresqlIsolationLevels).events
      = [1] ∧
    rollbackCount (transaction (BodyOutcome.staleData 0 : BodyOutcome Unit)
        (some "REPEATABLE READ") 3 "READ COMMITTED" postgresqlIsolationLevels).events
      = 1 ∧
    commitCount (transaction (BodyOutcome.staleData 0 : BodyOutcome Unit)
        (some "REPEATABLE READ") 3 "READ COMMITTED" postgresqlIsolationLevels).events
      = 0 ∧
    sleepTenths (transaction (BodyOutcome.staleData 0 : BodyOutcome Unit)
        (some "REPEATABLE READ") 3 "READ COMMITTED" postgresqlIsolationLevels).events
      = [1] ∧
    (sleepTenths (transaction (BodyOutcome.staleData 0 : BodyOutcome Unit)
        (some "REPEATABLE READ") 3 "READ COMMITTED" postgresqlIsolationLevels).events).map
        tenthsToTime
      = [(0.1 : ℚ)] ∧
    (∀ (e rc : Nat) (prior : IsolationLevel), 2 ≤ rc →
        (transaction (BodyOutcome.staleData e : BodyOutcome Unit)
            (some "REPEATABLE READ") rc prior postgresqlIsolationLevels).outcome
          = TxOutcome.runtimeErrorGeneratorThrow ∧
        bodyRunAttempts (transaction (BodyOutcome.staleData e : BodyOutcome Unit)
            (some "REPEATABLE READ") rc prior postgresqlIsolationLevels).events
          = [1]) ∧
    (∀ (e : Nat) (prior : IsolationLevel),
        (transaction (BodyOutcome.staleData e : BodyOutcome Unit)
            (some "REPEATABLE READ") 1 prior postgresqlIsolationLevels).outcome
          = TxOutcome.concurrencyExhausted e ∧
        sleepTenths (transaction (BodyOutcome.staleData e : BodyOutcome Unit)
            (some "REPEATABLE READ") 1 prior postgresqlIsolationLevels).events
          = []) := by
  have hmem : "REPEATABLE READ" ∈ postgresqlIsolationLevels := by decide
  refine ⟨by decide, by decide, by decide, by decide, by decide, ?_, ?_, ?_⟩
  · have h1 : sleepTenths (transaction (BodyOutcome.staleData 0 : BodyOutcome Unit)
        (some "REPEATABLE READ") 3 "READ COMMITTED" postgresqlIsolationLevels).events
        = [1] := by decide
    rw [h1]
    simp [tenthsToTime]
    norm_num
  · intro e rc prior hrc
    simp only [transaction, if_pos hmem]
    simp only [txBody, if_neg (show ¬ rc = 0 by omega),
      if_pos (show 1 < rc by omega)]
    refine ⟨?_, ?_⟩ <;> simp [bodyRunAttempts, finallyRestore]
  · intro e prior
    constructor
    · simp [transaction, if_pos hmem, txBody]
    · simp [transaction, if_pos hmem, txBody, sleepTenths, finallyRestore]

/-- C3: for every transaction scope opened with a requested isolation level
(one the connected dialect accepts, so that setting it succeeds and the
scope opens), the prior level is recorded and the requested level is set on
entry, every execution of the scope body runs at the requested level —
there is exactly one, so in particular every retry attempt that occurs does
— and the original level is restored on every exit path of the scope,
whether it ends in commit or in any of the failure modes. -/
theorem claim_C3_isolation_scope {α : Type} (body : BodyOutcome α)
    (lvl prior : IsolationLevel) (retry_count : Nat) (dialectLevels : List String)
    (hvalid : lvl ∈ dialectLevels) (hrc : 1 ≤ retry_count) :
    (transaction body (some lvl) retry_count prior dialectLevels).events.head?
        = some (TxEvent.setIsolation lvl) ∧
    (∀ l ∈ bodyRunLevels
        (transaction body (some lvl) retry_count prior dialectLevels).events,
      l = lvl) ∧
    (transaction body (some lvl) retry_count prior dialectLevels).finalLevel
        = prior := by
  simp only [transaction, if_pos hvalid]
  simp only [txBody, if_neg (show ¬ retry_count = 0 by omega)]
  refine ⟨rfl, ?_, ?_⟩
  · cases body with
    | ok v => simp [bodyRunLevels, finallyRestore]
    | staleData e =>
        by_cases h1 : 1 < retry_count
        · simp [if_pos h1, bodyRunLevels, finallyRestore]
        · simp [if_neg h1, bodyRunLevels, finallyRestore]
    | integrityErr e => simp [bodyRunLevels, finallyRestore]
    | sqlAlchemyErr e => simp [bodyRunLevels, finallyRestore]
    | otherErr e => simp [bodyRunLevels, finallyRestore]
  · cases body with
    | ok v => simp [lvlAfterFinally]
    | staleData e =>
        by_cases h1 : 1 < retry_count
        · simp [if_pos h1, lvlAfterFinally]
        · simp [if_neg h1, lvlAfterFinally]
    | integrityErr e => simp [lvlAfterFinally]
    | sqlAlchemyErr e => simp [lvlAfterFinally]
    | otherErr e => simp [lvlAfterFinally]

/-- Witness for C3 at a concrete scope on the PostgreSQL dialect. -/
theorem claim_C3_isolation_scope_witness :
    "REPEATABLE READ" ∈ postgresqlIsolationLevels ∧ 1 ≤ 3 ∧
      ((transaction (BodyOutcome.ok 0) (some "REPEATABLE READ") 3 "READ COMMITTED"
            postgresqlIsolationLevels).events.head?
          = some (TxEvent.setIsolation "REPEATABLE READ") ∧
        (∀ l ∈ bodyRunLevels (transaction (BodyOutcome.ok 0) (some "REPEATABLE READ")
            3 "READ COMMITTED" postgresqlIsolationLevels).events,
          l = "REPEATABLE READ") ∧
        (transaction (BodyOutcome.ok 0) (some "REPEATABLE READ") 3 "READ COMMITTED"
            postgresqlIsolationLevels).finalLevel = "READ COMMITTED") :=
  ⟨by decide, by decide,
    claim_C3_isolation_scope (BodyOutcome.ok 0) "REPEATABLE READ" "READ COMMITTED"
      3 postgresqlIsolationLevels (by decide) (by decide)⟩

/-- C4: the connection gate holds at most 20 permits concurrently; acquire
performs up to 5 non-blocking acquisition attempts separated by a 0.5
time-unit delay and fails with the capacity-exhausted error exactly when
none succeeds; for every scope, the permit is released exactly once on
every exit path (success, business error, or infrastructure error) when
acquisition succeeded, and is never released when acquisition failed. -/
theorem claim_C4_connection_gate :
    (∀ ops : List GateOp,
        (gateRun ops).avail + (gateRun ops).held = gateCapacity ∧
        (gateRun ops).held ≤ gateCapacity) ∧
    (∀ env : Nat → Bool,
        ((acquireLoop env 0 gateAttemptLimit).1 = false ↔
          ∀ j, j < gateAttemptLimit → env j = false) ∧
        (acquireLoop env 0 gateAttemptLimit).2.length ≤ gateAttemptLimit ∧
        ∀ d ∈ (acquireLoop env 0 gateAttemptLimit).2, d = gateDelay) ∧
    (∀ (env : Nat → Bool) (body : ScopeBody),
        ((acquire_connection env body).capacityExhausted = true ↔
          (acquire_connection env body).acquired = false) ∧
        (acquire_connection env body).releases
          = (if (acquire_connection env body).acquired = true then 1 else 0)) := by
  refine ⟨?_, ?_, ?_⟩
  · intro ops
    have hinv := gateFold_inv ops gateInit (by simp [gateInit])
    refine ⟨by simpa [gateRun] using hinv, ?_⟩
    have h : (gateRun ops).avail + (gateRun ops).held = 20 := by
      simpa [gateRun, gateCapacity] using hinv
    show (gateRun ops).held ≤ gateCapacity
    simp only [gateCapacity]
    omega
  · intro env
    have hs := acquireLoop_spec env gateAttemptLimit 0
    refine ⟨?_, hs.2.1, hs.2.2⟩
    rw [hs.1]
    constructor
    · intro hj j hlt
      simpa using hj j hlt
    · intro hj j hlt
      simpa using hj j hlt
  · intro env body
    cases hl : (acquireLoop env 0 gateAttemptLimit).1 with
    | false => cases body <;> simp [acquire_connection, hl]
    | true => cases body <;> simp [acquire_connection, hl]

/-- C5 (the code evaluated at the failing input): field names are never
validated.  Both `create` and `update` fail with the validator-invocation
`TypeError` on every call — for valid and invalid field sets alike — and
never open a scope, so the unknown-attribute error is unreachable.  The
validator *body*, had it been invoked with a proper receiver, implements
exactly the claimed check: it accepts a field set precisely when every
supplied name is recognized and otherwise reports the first unrecognized
supplied name. -/
theorem claim_C5_field_validation_never_runs :
    (∀ (db : List Entity) (kwargs : List (String × AttrValue)),
        (create db kwargs).openedScope = false ∧
        (create db kwargs).result
          = Except.error CrudError.typeErrorMissingData) ∧
    (∀ (db : List Entity) (self : Entity) (kwargs : List (String × AttrValue)),
        (update db self kwargs).openedScope = false ∧
        (update db self kwargs).result
          = Except.error CrudError.typeErrorMissingData) ∧
    (∀ (recognized : List String) (data : List (String × AttrValue)),
        validate_entity_data recognized data = none ↔
          ∀ p ∈ data, p.1 ∈ recognized) ∧
    (∀ (recognized : List String) (data : List (String × AttrValue)) (k : String),
        validate_entity_data recognized data = some k →
          k ∉ recognized ∧ k ∈ kwargKeys data) :=
  ⟨fun _ _ => ⟨rfl, rfl⟩, fun _ _ _ => ⟨rfl, rfl⟩,
    validate_eq_none_iff, validate_eq_some⟩

/-- C6 (the code evaluated at the failing input): the coercion and
windowing the claim describes are exactly what the queries built before
the scope compute — including 10 items and total 25 for page 2 of size 10
over 25 rows — but `read_all` requests the misspelled isolation level
"READ COMMITED", which no SQLAlchemy dialect accepts, so on every dialect
the scope raises before the queries execute and every call returns the
wrapped error instead of the claimed items and count. -/
theorem claim_C6_pagination :
    readAllIsolationLevel ∉ sqlalchemyIsolationLevels ∧
    (∀ (dialectLevels : List String) (prior : IsolationLevel)
        (db : List Entity) (page page_size : Option Int),
        (∀ l ∈ dialectLevels, l ∈ sqlalchemyIsolationLevels) →
        read_all dialectLevels prior db page page_size
          = Except.error CrudError.readAllError) ∧
    (∀ (db : List Entity) (p s : Int),
        (1 : Int) ≤ (if p < 1 then 1 else p) ∧
        (s < 1 → (if s < 1 then 10 else s) = 10) ∧
        (read_allQuery db (some p) (some s)).1
            = (db.drop (((if p < 1 then 1 else p) - 1)
                * (if s < 1 then 10 else s)).toNat).take
                (if s < 1 then 10 else s).toNat ∧
        (read_allQuery db (some p) (some s)).2 = db.length ∧
        (read_allQuery db (some p) (some s)).1.length
            = min (if s < 1 then 10 else s).toNat
                (db.length - (((if p < 1 then 1 else p) - 1)
                  * (if s < 1 then 10 else s)).toNat) ∧
        ∀ i : Nat, i < (read_allQuery db (some p) (some s)).1.length →
          (read_allQuery db (some p) (some s)).1[i]?
            = db[(((if p < 1 then 1 else p) - 1)
                * (if s < 1 then 10 else s)).toNat + i]?) ∧
    (read_allQuery db25 (some 2) (some 10)).1.length = 10 ∧
    (read_allQuery db25 (some 2) (some 10)).2 = 25 := by
  have hmiss : readAllIsolationLevel ∉ sqlalchemyIsolationLevels := by decide
  refine ⟨hmiss, ?_, ?_, by decide, by decide⟩
  · intro dialectLevels prior db page page_size hsub
    have hnot : readAllIsolationLevel ∉ dialectLevels := fun h => hmiss (hsub _ h)
    simp [read_all, transaction, if_neg hnot]
  · intro db p s
    refine ⟨?_, ?_, ?_, ?_, ?_, ?_⟩
    · split <;> omega
    · intro hlt; simp [if_pos hlt]
    · simp [read_allQuery]
    · simp [read_allQuery]
    · simp [read_allQuery, List.length_take, List.length_drop]
    · intro i hi
      simp only [read_allQuery, List.length_take, List.length_drop] at hi
      simp only [read_allQuery]
      rw [List.getElem?_take_of_lt (by omega), List.getElem?_drop]

/-- C7 (the code evaluated at the failing input): the signature of
`Base.read_all` accepts no `filters` keyword even though
`ActivityService.get_activities_by_user` supplies one, and the count query
built by `read_all` (base.py line 159) carries no filter — the total it
would produce is always the full row count of the table. -/
theorem claim_C7_no_filters :
    "filters" ∈ get_activities_by_user_call_kwargs ∧
    "filters" ∉ read_all_params ∧
    ∀ (db : List Entity) (p s : Option Int), (read_allQuery db p s).2 = db.length := by
  refine ⟨by decide, by decide, ?_⟩
  intro db p s
  cases p <;> cases s <;> simp [read_allQuery]

/-- C8 (the code evaluated at the failing input): the round trip is
impossible because `create` never succeeds — every call fails with the
validator-invocation `TypeError` — so there is never a created identifier
for `read_by_id` to look up; `read_by_id` itself is a sound point lookup
(whenever it returns a row, that row is in the table and has the requested
primary key). -/
theorem claim_C8_round_trip_impossible :
    (create [] [("title", AttrValue.vStr "hola")]).result
        = Except.error CrudError.typeErrorMissingData ∧
    (∀ (db : List Entity) (kwargs : List (String × AttrValue))
        (ent : Entity) (db2 : List Entity),
        ¬ (create db kwargs).result = Except.ok (ent, db2)) ∧
    (∀ (db : List Entity) (oid : String) (e : Entity),
        read_by_id db oid = Except.ok e → e.pkValue = oid ∧ e ∈ db) := by
  refine ⟨rfl, ?_, ?_⟩
  · intro db kwargs ent db2 h
    simp [create, validate_entity_data_classCall] at h
  · intro db oid e h
    unfold read_by_id at h
    cases hf : db.find? (fun x => x.pkValue == oid) with
    | none => rw [hf] at h; exact absurd h (by simp)
    | some w =>
        rw [hf] at h
        obtain rfl : w = e := by
          have := Except.ok.inj h
          exact this
        constructor
        · have hp := List.find?_some hf
          exact eq_of_beq (by simpa using hp)
        · exact List.mem_of_find?_eq_some hf

/-- C9 (the code evaluated at the failing input): creating an activity
without a type resolves or lazily creates the canonical "General" type
with color "#F6F6F6" in the session, but the call then raises at
`Activity.create` before the association step — which would itself fail,
since `types` is not an attribute `Activity` defines — and the scope's
rollback discards the flushed type row, so nothing persists; a second call
therefore finds no committed "General" record and lazily creates a fresh
one instead of reusing the first. -/
theorem claim_C9_general_type_not_associated :
    (resolveGeneralType [] "g1").1.name = "General" ∧
    (resolveGeneralType [] "g1").1.color_asigned = "#F6F6F6" ∧
    (create_activity_noType [] "g1").sessionTypes
        = [⟨"g1", "General", "#F6F6F6"⟩] ∧
    (create_activity_noType [] "g1").createError
        = CrudError.typeErrorMissingData ∧
    (create_activity_noType [] "g1").committedTypes = [] ∧
    (create_activity_noType (create_activity_noType [] "g1").committedTypes
        "g2").sessionTypes = [⟨"g2", "General", "#F6F6F6"⟩] ∧
    activityAssociationAttr ∉ activityAttrs := by
  decide

/-- C10 (the code evaluated at the failing input): the guard at base.py
line 162 applies coercion and windowing only when both `page` and
`page_size` are non-None, so with either omitted the built row query is
unwindowed and the call is literally the same computation as supplying
neither — but "the full unwindowed result set is returned" is false:
on every dialect the call fails on the invalid "READ COMMITED" isolation
level before the query runs, returning the wrapped error instead. -/
theorem claim_C10_partial_pagination :
    (∀ (db : List Entity) (p : Int),
        read_allQuery db (some p) none = (db, db.length)) ∧
    (∀ (db : List Entity) (s : Int),
        read_allQuery db none (some s) = (db, db.length)) ∧
    (∀ db : List Entity, read_allQuery db none none = (db, db.length)) ∧
    (∀ (dialectLevels : List String) (prior : IsolationLevel)
        (db : List Entity) (p s : Int),
        read_all dialectLevels prior db (some p) none
            = read_all dialectLevels prior db none none ∧
        read_all dialectLevels prior db none (some s)
            = read_all dialectLevels prior db none none) ∧
    (∀ (dialectLevels : List String) (prior : IsolationLevel)
        (db : List Entity) (p : Int),
        (∀ l ∈ dialectLevels, l ∈ sqlalchemyIsolationLevels) →
        read_all dialectLevels prior db (some p) none
          = Except.error CrudError.readAllError) := by
  have hmiss : readAllIsolationLevel ∉ sqlalchemyIsolationLevels := by decide
  refine ⟨fun db p => rfl, fun db s => rfl, fun db => rfl,
    fun dialectLevels prior db p s => ⟨rfl, rfl⟩, ?_⟩
  intro dialectLevels prior db p hsub
  have hnot : readAllIsolationLevel ∉ dialectLevels := fun h => hmiss (hsub _ h)
  simp [read_all, transaction, if_neg hnot]
